import Mathlib

/-!
Shallow embedding of the ViperASM instruction-synthesis engine
(`src/synthesis.go`) and proofs about it.

Go `uint32` arithmetic is modelled on `Nat` with explicit reduction
modulo `2^32` (`u32`); Go conversions from signed integers to `uint32`
are modelled on `Int` with `Int.emod` (`u32ofInt`).  Go maps keyed by
strings are modelled as association lists with exact-match lookup.
A Go function returning `(uint32, error)` is modelled by `GoResult.ret`;
a Go runtime panic (nil-pointer dereference) is modelled by
`GoResult.crash`.
-/

namespace ViperASM

/-- The instruction types in RISC-V (Go `InstructionType`, an `int` enum). -/
inductive InstructionType where
  | R_TYPE
  | I_TYPE
  | S_TYPE
  | B_TYPE
  | U_TYPE
  | J_TYPE
deriving DecidableEq, Repr

/-- The integer value of each `InstructionType` constant (Go `iota`). -/
def InstructionType.toInt : InstructionType → Nat
  | .R_TYPE => 0
  | .I_TYPE => 1
  | .S_TYPE => 2
  | .B_TYPE => 3
  | .U_TYPE => 4
  | .J_TYPE => 5

/-- An instruction descriptor (Go `Instruction`): format tag plus fixed
opcode (`uint8`), funct3 (`uint8`) and funct7 (`uint16`) bits. -/
structure Instruction where
  format : InstructionType
  opcode : Nat
  funct3 : Nat
  funct7 : Nat
deriving DecidableEq, Repr

/-- Reduction modulo `2^32`, the effect of Go `uint32` arithmetic. -/
def u32 (n : Nat) : Nat := n % 4294967296

/-- Go conversion of a signed integer to `uint32` (two-complement wraparound). -/
def u32ofInt (i : Int) : Nat := (i % 4294967296).toNat

/-- Exact-match lookup in an association list, modelling a Go map read. -/
def mapLookup {α : Type} : List (String × α) → String → Option α
  | [], _ => none
  | (k, v) :: rest, key => if key = k then some v else mapLookup rest key

/-- The instruction set (Go `instructionSet`). -/
def instructionSet : List (String × Instruction) :=
  [("add",  ⟨.R_TYPE, 0b0110011, 0x0, 0x00⟩),
   ("sub",  ⟨.R_TYPE, 0b0110011, 0x0, 0x20⟩),
   ("xor",  ⟨.R_TYPE, 0b0110011, 0x4, 0x00⟩),
   ("or",   ⟨.R_TYPE, 0b0110011, 0x6, 0x00⟩),
   ("and",  ⟨.R_TYPE, 0b0110011, 0x7, 0x00⟩),
   ("sll",  ⟨.R_TYPE, 0b0110011, 0x1, 0x00⟩),
   ("srl",  ⟨.R_TYPE, 0b0110011, 0x5, 0x00⟩),
   ("sra",  ⟨.R_TYPE, 0b0110011, 0x5, 0x20⟩),
   ("slt",  ⟨.R_TYPE, 0b0110011, 0x2, 0x00⟩),
   ("sltu", ⟨.R_TYPE, 0b0110011, 0x3, 0x00⟩)]

/-- The ABI registers map (Go `registerMap`). -/
def registerMap : List (String × Nat) :=
  [("zero", 0), ("ra", 1), ("sp", 2), ("gp", 3), ("tp", 4),
   ("t0", 5), ("t1", 6), ("t2", 7),
   ("s0", 8), ("s1", 9),
   ("a0", 10), ("a1", 11), ("a2", 12), ("a3", 13), ("a4", 14), ("a5", 15),
   ("a6", 16), ("a7", 17),
   ("s2", 18), ("s3", 19), ("s4", 20), ("s5", 21), ("s6", 22), ("s7", 23),
   ("s8", 24), ("s9", 25), ("s10", 26), ("s11", 27),
   ("t3", 28), ("t4", 29), ("t5", 30), ("t6", 31)]

/-- A R-type instruction record (Go `RTypeInstruction`): `opcode`,
`funct3`, `funct7` are `uint8` fields, the registers are ABI names. -/
structure RTypeInstruction where
  opcode : Nat
  rs1 : String
  rs2 : String
  rd : String
  funct3 : Nat
  funct7 : Nat
deriving DecidableEq, Repr

/-- An I-type instruction record (Go `ITypeInstruction`); `imm` is `int16`. -/
structure ITypeInstruction where
  opcode : Nat
  rs1 : String
  rd : String
  funct3 : Nat
  imm : Int
deriving DecidableEq, Repr

/-- A S-type instruction record (Go `STypeInstruction`); `imm` is `int16`. -/
structure STypeInstruction where
  opcode : Nat
  rs1 : String
  rs2 : String
  funct3 : Nat
  imm : Int
deriving DecidableEq, Repr

/-- A B-type instruction record (Go `BTypeInstruction`); `imm` is `int16`. -/
structure BTypeInstruction where
  opcode : Nat
  rs1 : String
  rs2 : String
  funct3 : Nat
  imm : Int
deriving DecidableEq, Repr

/-- A U-type instruction record (Go `UTypeInstruction`); `imm` is `int32`. -/
structure UTypeInstruction where
  opcode : Nat
  rd : String
  imm : Int
deriving DecidableEq, Repr

/-- A J-type instruction record (Go `JTypeInstruction`); `imm` is `int32`. -/
structure JTypeInstruction where
  opcode : Nat
  rd : String
  imm : Int
deriving DecidableEq, Repr

/-- A RISC-V assembly instruction (Go `AssemblyInstruction`); the Go
pointer fields become options, `none` modelling a nil pointer. -/
structure AssemblyInstruction where
  name : String
  rType : Option RTypeInstruction
  iType : Option ITypeInstruction
  sType : Option STypeInstruction
  bType : Option BTypeInstruction
  uType : Option UTypeInstruction
  jType : Option JTypeInstruction
deriving DecidableEq, Repr

/-- Outcome of a Go function returning `(uint32, error)`: `ret w e`
is a normal return of word `w` and error `e` (`none` for Go `nil`);
`crash` models a Go runtime panic, which aborts the process. -/
inductive GoResult where
  | ret (word : Nat) (err : Option String)
  | crash (msg : String)
deriving DecidableEq, Repr

/-- `true` iff the call returned a word with a `nil` error. -/
def GoResult.isSuccess : GoResult → Bool
  | .ret _ none => true
  | _ => false

/-- The word component of a normal return (0 for a crash). -/
def GoResult.word : GoResult → Nat
  | .ret w _ => w
  | .crash _ => 0

/-- Go `synthesizeRType`: resolve `rs1`, `rs2`, `rd` in `registerMap`
(failing with role-named errors), then pack
`opcode<<26 | rs1<<21 | rs2<<16 | rd<<11 | funct3<<12 | funct7<<25`. -/
def synthesizeRType (asm : RTypeInstruction) (instruction : Instruction) : GoResult :=
  match mapLookup registerMap asm.rs1 with
  | none => .ret 0 (some ("invalid source register: " ++ asm.rs1))
  | some source =>
    match mapLookup registerMap asm.rs2 with
    | none => .ret 0 (some ("invalid target register: " ++ asm.rs2))
    | some target =>
      match mapLookup registerMap asm.rd with
      | none => .ret 0 (some ("invalid destination register: " ++ asm.rd))
      | some destination =>
        .ret (u32 (instruction.opcode <<< 26) ||| u32 (source <<< 21) |||
              u32 (target <<< 16) ||| u32 (destination <<< 11) |||
              u32 (asm.funct3 <<< 12) ||| u32 (asm.funct7 <<< 25)) none

/-- Go `synthesizeIType`: resolve `rs1` and `rd` (the failure message
for `rd` says "target"), then pack
`opcode<<26 | rs1<<21 | rd<<16 | (imm & 0xFFFF)`. -/
def synthesizeIType (asm : ITypeInstruction) (instruction : Instruction) : GoResult :=
  match mapLookup registerMap asm.rs1 with
  | none => .ret 0 (some ("invalid source register: " ++ asm.rs1))
  | some source =>
    match mapLookup registerMap asm.rd with
    | none => .ret 0 (some ("invalid target register: " ++ asm.rd))
    | some target =>
      .ret (u32 (instruction.opcode <<< 26) ||| u32 (source <<< 21) |||
            u32 (target <<< 16) ||| (u32ofInt asm.imm &&& 0xFFFF)) none

/-- Go `synthesizeJType`: resolve `rd`, then pack
`opcode<<26 | rd<<16 | (imm & 0x3FFFFFF)`. -/
def synthesizeJType (asm : JTypeInstruction) (instruction : Instruction) : GoResult :=
  match mapLookup registerMap asm.rd with
  | none => .ret 0 (some ("invalid destination register: " ++ asm.rd))
  | some destination =>
    .ret (u32 (instruction.opcode <<< 26) ||| u32 (destination <<< 16) |||
          (u32ofInt asm.imm &&& 0x3FFFFFF)) none

/-- Go `synthesize`: look up the mnemonic in `instructionSet`, dispatch
on the format of the descriptor to the matching encoder, dereferencing the
corresponding record pointer (a nil pointer panics), and wrap encoder
errors with a format-naming prefix. -/
def synthesize (asm : AssemblyInstruction) : GoResult :=
  match mapLookup instructionSet asm.name with
  | none => .ret 0 (some ("invalid instruction name: " ++ asm.name))
  | some instruction =>
    match instruction.format with
    | .R_TYPE =>
      match asm.rType with
      | none => .crash "runtime error: invalid memory address or nil pointer dereference"
      | some rt =>
        match synthesizeRType rt instruction with
        | .ret w none => .ret w none
        | .ret _ (some e) => .ret 0 (some ("error synthesizing R-type instruction: " ++ e))
        | .crash m => .crash m
    | .I_TYPE =>
      match asm.iType with
      | none => .crash "runtime error: invalid memory address or nil pointer dereference"
      | some it =>
        match synthesizeIType it instruction with
        | .ret w none => .ret w none
        | .ret _ (some e) => .ret 0 (some ("error synthesizing I-type instruction: " ++ e))
        | .crash m => .crash m
    | .J_TYPE =>
      match asm.jType with
      | none => .crash "runtime error: invalid memory address or nil pointer dereference"
      | some jt =>
        match synthesizeJType jt instruction with
        | .ret w none => .ret w none
        | .ret _ (some e) => .ret 0 (some ("error synthesizing J-type instruction: " ++ e))
        | .crash m => .crash m
    | f => .ret 0 (some ("unknown instruction type: " ++ toString f.toInt))

/-- `true` iff `r` is a key of the canonical ABI register map. -/
def registerValid (r : String) : Bool :=
  (mapLookup registerMap r).isSome

/-- `true` iff the record field corresponding to the given format tag is
populated (the Go pointer for that shape is non-nil). -/
def shapeMatches (asm : AssemblyInstruction) : InstructionType → Bool
  | .R_TYPE => asm.rType.isSome
  | .I_TYPE => asm.iType.isSome
  | .S_TYPE => asm.sType.isSome
  | .B_TYPE => asm.bType.isSome
  | .U_TYPE => asm.uType.isSome
  | .J_TYPE => asm.jType.isSome

/-- `true` iff every register name of every populated operand shape of
`asm` is a key of the canonical ABI register map. -/
def operandRegsValid (asm : AssemblyInstruction) : Bool :=
  (match asm.rType with
   | some rt => registerValid rt.rs1 && registerValid rt.rs2 && registerValid rt.rd
   | none => true) &&
  (match asm.iType with
   | some it => registerValid it.rs1 && registerValid it.rd
   | none => true) &&
  (match asm.jType with
   | some jt => registerValid jt.rd
   | none => true)

/-- The process-wide mutable state visible to the Go code: the two
package-level maps.  `synthesize` only ever reads them; the
state-passing rendering below makes that observable. -/
structure GlobalState where
  instructions : List (String × Instruction)
  registers : List (String × Nat)

/-- `synthesizeRType` rendered with the package-level register map
threaded as explicit state; every Go `return` hands back the state as
the function left it. -/
def synthesizeRTypeWithState (st : GlobalState) (asm : RTypeInstruction)
    (instruction : Instruction) : GoResult × GlobalState :=
  match mapLookup st.registers asm.rs1 with
  | none => (.ret 0 (some ("invalid source register: " ++ asm.rs1)), st)
  | some source =>
    match mapLookup st.registers asm.rs2 with
    | none => (.ret 0 (some ("invalid target register: " ++ asm.rs2)), st)
    | some target =>
      match mapLookup st.registers asm.rd with
      | none => (.ret 0 (some ("invalid destination register: " ++ asm.rd)), st)
      | some destination =>
        (.ret (u32 (instruction.opcode <<< 26) ||| u32 (source <<< 21) |||
               u32 (target <<< 16) ||| u32 (destination <<< 11) |||
               u32 (asm.funct3 <<< 12) ||| u32 (asm.funct7 <<< 25)) none, st)

/-- `synthesizeIType` rendered with explicit state. -/
def synthesizeITypeWithState (st : GlobalState) (asm : ITypeInstruction)
    (instruction : Instruction) : GoResult × GlobalState :=
  match mapLookup st.registers asm.rs1 with
  | none => (.ret 0 (some ("invalid source register: " ++ asm.rs1)), st)
  | some source =>
    match mapLookup st.registers asm.rd with
    | none => (.ret 0 (some ("invalid target register: " ++ asm.rd)), st)
    | some target =>
      (.ret (u32 (instruction.opcode <<< 26) ||| u32 (source <<< 21) |||
             u32 (target <<< 16) ||| (u32ofInt asm.imm &&& 0xFFFF)) none, st)

/-- `synthesizeJType` rendered with explicit state. -/
def synthesizeJTypeWithState (st : GlobalState) (asm : JTypeInstruction)
    (instruction : Instruction) : GoResult × GlobalState :=
  match mapLookup st.registers asm.rd with
  | none => (.ret 0 (some ("invalid destination register: " ++ asm.rd)), st)
  | some destination =>
    (.ret (u32 (instruction.opcode <<< 26) ||| u32 (destination <<< 16) |||
           (u32ofInt asm.imm &&& 0x3FFFFFF)) none, st)

/-- `synthesize` rendered with the two package-level maps threaded as
explicit state, so that the absence of mutation is a provable fact
rather than a modelling assumption. -/
def synthesizeWithState (st : GlobalState) (asm : AssemblyInstruction) :
    GoResult × GlobalState :=
  match mapLookup st.instructions asm.name with
  | none => (.ret 0 (some ("invalid instruction name: " ++ asm.name)), st)
  | some instruction =>
    match instruction.format with
    | .R_TYPE =>
      match asm.rType with
      | none => (.crash "runtime error: invalid memory address or nil pointer dereference", st)
      | some rt =>
        match synthesizeRTypeWithState st rt instruction with
        | (.ret w none, st2) => (.ret w none, st2)
        | (.ret _ (some e), st2) =>
          (.ret 0 (some ("error synthesizing R-type instruction: " ++ e)), st2)
        | (.crash m, st2) => (.crash m, st2)
    | .I_TYPE =>
      match asm.iType with
      | none => (.crash "runtime error: invalid memory address or nil pointer dereference", st)
      | some it =>
        match synthesizeITypeWithState st it instruction with
        | (.ret w none, st2) => (.ret w none, st2)
        | (.ret _ (some e), st2) =>
          (.ret 0 (some ("error synthesizing I-type instruction: " ++ e)), st2)
        | (.crash m, st2) => (.crash m, st2)
    | .J_TYPE =>
      match asm.jType with
      | none => (.crash "runtime error: invalid memory address or nil pointer dereference", st)
      | some jt =>
        match synthesizeJTypeWithState st jt instruction with
        | (.ret w none, st2) => (.ret w none, st2)
        | (.ret _ (some e), st2) =>
          (.ret 0 (some ("error synthesizing J-type instruction: " ++ e)), st2)
        | (.crash m, st2) => (.crash m, st2)
    | f => (.ret 0 (some ("unknown instruction type: " ++ toString f.toInt)), st)

/-! ### Facts about the static tables -/

theorem mapLookup_mem {α : Type} {m : List (String × α)} {k : String} {v : α}
    (h : mapLookup m k = some v) : (k, v) ∈ m := by
  induction m with
  | nil => exact absurd h (by simp [mapLookup])
  | cons p rest ih =>
    obtain ⟨k2, v2⟩ := p
    simp only [mapLookup] at h
    split at h
    · rename_i hk
      injection h with h
      subst h; subst hk
      exact List.mem_cons_self _ _
    · exact List.mem_cons_of_mem _ (ih h)

theorem registerMap_lt {r : String} {n : Nat}
    (h : mapLookup registerMap r = some n) : n < 32 := by
  have hall : ∀ p ∈ registerMap, p.2 < 32 := by decide
  exact hall _ (mapLookup_mem h)

theorem instructionSet_facts {s : String} {i : Instruction}
    (h : mapLookup instructionSet s = some i) :
    i.format = .R_TYPE ∧ i.opcode = 51 ∧ i.funct3 < 8 ∧ (i.funct7 = 0 ∨ i.funct7 = 32) := by
  have hall : ∀ p ∈ instructionSet,
      p.2.format = InstructionType.R_TYPE ∧ p.2.opcode = 51 ∧ p.2.funct3 < 8 ∧
        (p.2.funct7 = 0 ∨ p.2.funct7 = 32) := by decide
  exact hall _ (mapLookup_mem h)

/-! ### Bit-level arithmetic of the packed words -/

theorem or_eq_add {k a b : Nat} (ha : a % 2 ^ k = 0) (hb : b < 2 ^ k) :
    a ||| b = a + b := by
  obtain ⟨c, hc⟩ := Nat.dvd_of_mod_eq_zero ha
  subst hc
  exact (Nat.mul_add_lt_is_or hb c).symm

theorem rdLow_pair : ∀ d < 32, ∀ f3 < 8,
    d * 2048 ||| f3 * 4096 = (d ||| f3 * 2) * 2048 ∧ (d ||| f3 * 2) < 32 := by decide

/-- Closed form of the R-type packed word for the funct bits that occur
in `instructionSet`: the `rd` and `funct3` fields merge by bitwise OR at
bit 11, and the `funct7` bit pattern 0x20 at bit 25 lands inside the
opcode bits and is absorbed. -/
theorem rWord_eq {s t d f3 f7 : Nat} (hs : s < 32) (ht : t < 32) (hd : d < 32)
    (h3 : f3 < 8) (h7 : f7 = 0 ∨ f7 = 32) :
    u32 (51 <<< 26) ||| u32 (s <<< 21) ||| u32 (t <<< 16) ||| u32 (d <<< 11) |||
      u32 (f3 <<< 12) ||| u32 (f7 <<< 25)
    = 3422552064 + s * 2097152 + t * 65536 + (d ||| f3 * 2) * 2048 := by
  obtain ⟨hm, hmlt⟩ := rdLow_pair d hd f3 h3
  simp only [u32, Nat.shiftLeft_eq]
  norm_num
  rw [Nat.mod_eq_of_lt (a := s * 2097152) (by omega),
      Nat.mod_eq_of_lt (a := t * 65536) (by omega),
      Nat.mod_eq_of_lt (a := d * 2048) (by omega),
      Nat.mod_eq_of_lt (a := f3 * 4096) (by omega)]
  rcases h7 with h7 | h7 <;> subst h7
  · norm_num
    have hassoc : 3422552064 ||| s * 2097152 ||| t * 65536 ||| d * 2048 ||| f3 * 4096
        = 3422552064 ||| (s * 2097152 ||| (t * 65536 ||| (d * 2048 ||| f3 * 4096))) := by
      ac_rfl
    rw [hassoc, hm,
        or_eq_add (k := 16) (a := t * 65536) (by omega) (by omega),
        or_eq_add (k := 21) (a := s * 2097152) (by omega) (by omega),
        or_eq_add (k := 26) (a := 3422552064) (by omega) (by omega)]
    omega
  · norm_num
    have hassoc : 3422552064 ||| s * 2097152 ||| t * 65536 ||| d * 2048 ||| f3 * 4096 ||| 1073741824
        = (3422552064 ||| 1073741824) |||
            (s * 2097152 ||| (t * 65536 ||| (d * 2048 ||| f3 * 4096))) := by
      ac_rfl
    rw [hassoc, show (3422552064 ||| 1073741824 : Nat) = 3422552064 by decide, hm,
        or_eq_add (k := 16) (a := t * 65536) (by omega) (by omega),
        or_eq_add (k := 21) (a := s * 2097152) (by omega) (by omega),
        or_eq_add (k := 26) (a := 3422552064) (by omega) (by omega)]
    omega

/-- The opcode field survives at bits 26..31 for any `uint8` funct3
value, not only the ones occurring in the table. -/
theorem rWord_shift26 {s t d f3 f7 : Nat} (hs : s < 32) (ht : t < 32) (hd : d < 32)
    (h3 : f3 < 256) (h7 : f7 = 0 ∨ f7 = 32) :
    (u32 (51 <<< 26) ||| u32 (s <<< 21) ||| u32 (t <<< 16) ||| u32 (d <<< 11) |||
      u32 (f3 <<< 12) ||| u32 (f7 <<< 25)) >>> 26 = 51 := by
  simp only [u32, Nat.shiftLeft_eq]
  norm_num
  rw [Nat.mod_eq_of_lt (a := s * 2097152) (by omega),
      Nat.mod_eq_of_lt (a := t * 65536) (by omega),
      Nat.mod_eq_of_lt (a := d * 2048) (by omega),
      Nat.mod_eq_of_lt (a := f3 * 4096) (by omega)]
  have hlow : s * 2097152 ||| (t * 65536 ||| (d * 2048 ||| f3 * 4096)) < 67108864 := by
    refine Nat.or_lt_two_pow (n := 26) (by omega) ?_
    refine Nat.or_lt_two_pow (n := 26) (by omega) ?_
    exact Nat.or_lt_two_pow (n := 26) (by omega) (by omega)
  rcases h7 with h7 | h7 <;> subst h7
  · norm_num
    have hassoc : 3422552064 ||| s * 2097152 ||| t * 65536 ||| d * 2048 ||| f3 * 4096
        = 3422552064 ||| (s * 2097152 ||| (t * 65536 ||| (d * 2048 ||| f3 * 4096))) := by
      ac_rfl
    rw [hassoc, or_eq_add (k := 26) (a := 3422552064) (by omega) hlow,
        Nat.shiftRight_eq_div_pow]
    omega
  · norm_num
    have hassoc : 3422552064 ||| s * 2097152 ||| t * 65536 ||| d * 2048 ||| f3 * 4096 ||| 1073741824
        = (3422552064 ||| 1073741824) |||
            (s * 2097152 ||| (t * 65536 ||| (d * 2048 ||| f3 * 4096))) := by
      ac_rfl
    rw [hassoc, show (3422552064 ||| 1073741824 : Nat) = 3422552064 by decide,
        or_eq_add (k := 26) (a := 3422552064) (by omega) hlow,
        Nat.shiftRight_eq_div_pow]
    omega

/-- Closed form of the opcode/rs1/rd fields of the I-type word. -/
theorem iFields_eq {op s t : Nat} (hop : op < 256) (hs : s < 32) (ht : t < 32) :
    u32 (op <<< 26) ||| u32 (s <<< 21) ||| u32 (t <<< 16)
    = op % 64 * 67108864 + s * 2097152 + t * 65536 := by
  simp only [u32, Nat.shiftLeft_eq]
  norm_num
  rw [Nat.mod_eq_of_lt (a := s * 2097152) (by omega),
      Nat.mod_eq_of_lt (a := t * 65536) (by omega),
      show op * 67108864 % 4294967296 = op % 64 * 67108864 by omega,
      or_eq_add (k := 26) (a := op % 64 * 67108864) (by omega) (by omega),
      or_eq_add (k := 21) (a := op % 64 * 67108864 + s * 2097152) (by omega) (by omega)]

/-- Closed form of the full I-type word given a low part of at most 16 bits. -/
theorem iWord_eq {op s t iv : Nat} (hop : op < 256) (hs : s < 32) (ht : t < 32)
    (hiv : iv < 65536) :
    u32 (op <<< 26) ||| u32 (s <<< 21) ||| u32 (t <<< 16) ||| iv
    = op % 64 * 67108864 + s * 2097152 + t * 65536 + iv := by
  rw [iFields_eq hop hs ht,
      or_eq_add (k := 16) (a := op % 64 * 67108864 + s * 2097152 + t * 65536)
        (by omega) (by omega)]

/-- Closed form of the J-type word: the destination register field at
bit 16 sits inside the low 26 bits and merges with the masked address
by bitwise OR. -/
theorem jWord_eq {op d iv : Nat} (hop : op < 256) (hd : d < 32) (hiv : iv < 67108864) :
    u32 (op <<< 26) ||| u32 (d <<< 16) ||| iv
    = op % 64 * 67108864 + (d * 65536 ||| iv) := by
  have hor : d * 65536 ||| iv < 67108864 :=
    Nat.or_lt_two_pow (n := 26) (by omega) (by omega)
  simp only [u32, Nat.shiftLeft_eq]
  norm_num
  rw [Nat.mod_eq_of_lt (a := d * 65536) (by omega),
      show op * 67108864 % 4294967296 = op % 64 * 67108864 by omega,
      Nat.or_assoc,
      or_eq_add (k := 26) (a := op % 64 * 67108864) (by omega) hor]

/-- The 16-bit mask of the Go `uint32(int16)` conversion is reduction
of the immediate modulo `2^16`. -/
theorem immLow16 (imm : Int) : u32ofInt imm &&& 0xFFFF = (imm % 65536).toNat := by
  have h1 : (0xFFFF : Nat) = 2 ^ 16 - 1 := by norm_num
  rw [u32ofInt, h1, Nat.and_pow_two_sub_one_eq_mod]
  have h2 : imm % 4294967296 % 65536 = imm % 65536 :=
    Int.emod_emod_of_dvd _ (by norm_num)
  norm_num
  omega

/-- The 26-bit mask of the Go `uint32(int32)` conversion is reduction
of the immediate modulo `2^26`. -/
theorem immLow26 (imm : Int) : u32ofInt imm &&& 0x3FFFFFF = (imm % 67108864).toNat := by
  have h1 : (0x3FFFFFF : Nat) = 2 ^ 26 - 1 := by norm_num
  rw [u32ofInt, h1, Nat.and_pow_two_sub_one_eq_mod]
  have h2 : imm % 4294967296 % 67108864 = imm % 67108864 :=
    Int.emod_emod_of_dvd _ (by norm_num)
  norm_num
  omega

/-! ### Claims -/

/-- Claim C2: the claim says a record whose populated operand shape does
not match the format declared for its mnemonic yields a `FormatMismatch`
typed failure and never aborts the process.  The code instead
dereferences the nil R-type pointer and panics: dispatching the R-type
mnemonic "add" with the R-type shape pointer unset crashes the process
with a nil-pointer dereference, and no FormatMismatch error exists
anywhere in the code. -/
theorem c2_shape_mismatch_crashes :
    synthesize ⟨"add", none, none, none, none, none, none⟩
      = GoResult.crash "runtime error: invalid memory address or nil pointer dereference" := by
  decide

/-- Claim C7: if the mnemonic of the record is not a key of
`instructionSet`, `synthesize` returns the unknown-instruction error
with word 0 and does not crash, whatever the operand shapes are. -/
theorem c7_unknown_instruction (asm : AssemblyInstruction)
    (h : mapLookup instructionSet asm.name = none) :
    synthesize asm = GoResult.ret 0 (some ("invalid instruction name: " ++ asm.name)) := by
  simp [synthesize, h]

/-- Claim C7 witness: the unrecognized mnemonic "nop" with every shape
pointer nil. -/
theorem c7_unknown_instruction_witness :
    mapLookup instructionSet "nop" = none ∧
    synthesize ⟨"nop", none, none, none, none, none, none⟩
      = GoResult.ret 0 (some ("invalid instruction name: " ++ "nop")) :=
  ⟨by decide,
   c7_unknown_instruction ⟨"nop", none, none, none, none, none, none⟩ (by decide)⟩

/-- Claim C10: whenever `synthesize` or any of the three format encoders
returns a non-nil error, the word component of the returned pair is
exactly 0. -/
theorem c10_error_word_zero :
    (∀ (asm : AssemblyInstruction) (w : Nat) (e : String),
        synthesize asm = GoResult.ret w (some e) → w = 0) ∧
    (∀ (a : RTypeInstruction) (i : Instruction) (w : Nat) (e : String),
        synthesizeRType a i = GoResult.ret w (some e) → w = 0) ∧
    (∀ (a : ITypeInstruction) (i : Instruction) (w : Nat) (e : String),
        synthesizeIType a i = GoResult.ret w (some e) → w = 0) ∧
    (∀ (a : JTypeInstruction) (i : Instruction) (w : Nat) (e : String),
        synthesizeJType a i = GoResult.ret w (some e) → w = 0) := by
  refine ⟨?_, ?_, ?_, ?_⟩
  · intro asm w e h
    simp only [synthesize] at h
    repeat' split at h
    all_goals simp_all
  · intro a i w e h
    simp only [synthesizeRType] at h
    repeat' split at h
    all_goals simp_all
  · intro a i w e h
    simp only [synthesizeIType] at h
    repeat' split at h
    all_goals simp_all
  · intro a i w e h
    simp only [synthesizeJType] at h
    repeat' split at h
    all_goals simp_all

/-- Claim C10 witness: a concrete erroring call (unknown mnemonic)
whose returned word the theorem pins to 0. -/
theorem c10_error_word_zero_witness :
    synthesize ⟨"nop", none, none, none, none, none, none⟩
      = GoResult.ret 0 (some ("invalid instruction name: " ++ "nop")) ∧ (0 : Nat) = 0 :=
  ⟨by decide,
   c10_error_word_zero.1 ⟨"nop", none, none, none, none, none, none⟩ 0
     ("invalid instruction name: " ++ "nop") (by decide)⟩

/-- Claim C6 counterexample: the register-immediate encoder reports its
destination operand slot (`rd`) with the target role, not the
destination role, refuting the claim that the destination operand is
always reported as the destination role. -/
theorem c6_claim_counterexample :
    synthesizeIType ⟨0, "zero", "nope", 0, 0⟩ ⟨.I_TYPE, 0, 0, 0⟩
      = GoResult.ret 0 (some ("invalid target register: " ++ "nope")) ∧
    ("invalid target register: " ++ "nope") ≠ ("invalid destination register: " ++ "nope") := by
  refine ⟨by decide, by decide⟩

/-- Claim C6 as amended: each register slot of each encoder fails with
an unknown-register error naming an operand role when its name is not
in the canonical map, and the role is source/target/destination in
check order for the R-type encoder and destination for the J-type
encoder; however the register-immediate encoder reports its destination
slot `rd` under the target role. -/
theorem c6_unknown_register_roles (instr : Instruction) (ra : RTypeInstruction)
    (ia : ITypeInstruction) (ja : JTypeInstruction) :
    (mapLookup registerMap ra.rs1 = none →
      synthesizeRType ra instr
        = GoResult.ret 0 (some ("invalid source register: " ++ ra.rs1))) ∧
    ((mapLookup registerMap ra.rs1).isSome = true → mapLookup registerMap ra.rs2 = none →
      synthesizeRType ra instr
        = GoResult.ret 0 (some ("invalid target register: " ++ ra.rs2))) ∧
    ((mapLookup registerMap ra.rs1).isSome = true →
      (mapLookup registerMap ra.rs2).isSome = true → mapLookup registerMap ra.rd = none →
      synthesizeRType ra instr
        = GoResult.ret 0 (some ("invalid destination register: " ++ ra.rd))) ∧
    (mapLookup registerMap ia.rs1 = none →
      synthesizeIType ia instr
        = GoResult.ret 0 (some ("invalid source register: " ++ ia.rs1))) ∧
    ((mapLookup registerMap ia.rs1).isSome = true → mapLookup registerMap ia.rd = none →
      synthesizeIType ia instr
        = GoResult.ret 0 (some ("invalid target register: " ++ ia.rd))) ∧
    (mapLookup registerMap ja.rd = none →
      synthesizeJType ja instr
        = GoResult.ret 0 (some ("invalid destination register: " ++ ja.rd))) := by
  refine ⟨?_, ?_, ?_, ?_, ?_, ?_⟩
  · intro h1
    simp [synthesizeRType, h1]
  · intro h1 h2
    obtain ⟨s, hs⟩ := Option.isSome_iff_exists.mp h1
    simp [synthesizeRType, hs, h2]
  · intro h1 h2 h3
    obtain ⟨s, hs⟩ := Option.isSome_iff_exists.mp h1
    obtain ⟨t, ht⟩ := Option.isSome_iff_exists.mp h2
    simp [synthesizeRType, hs, ht, h3]
  · intro h1
    simp [synthesizeIType, h1]
  · intro h1 h2
    obtain ⟨s, hs⟩ := Option.isSome_iff_exists.mp h1
    simp [synthesizeIType, hs, h2]
  · intro h1
    simp [synthesizeJType, h1]

/-- Claim C6 witness: each of the six slot failures exercised on a
concrete bad register name "bogus". -/
theorem c6_unknown_register_roles_witness :
    synthesizeRType ⟨0, "bogus", "sp", "ra", 0, 0⟩ ⟨.R_TYPE, 51, 0, 0⟩
      = GoResult.ret 0 (some ("invalid source register: " ++ "bogus")) ∧
    synthesizeRType ⟨0, "sp", "bogus", "ra", 0, 0⟩ ⟨.R_TYPE, 51, 0, 0⟩
      = GoResult.ret 0 (some ("invalid target register: " ++ "bogus")) ∧
    synthesizeRType ⟨0, "sp", "ra", "bogus", 0, 0⟩ ⟨.R_TYPE, 51, 0, 0⟩
      = GoResult.ret 0 (some ("invalid destination register: " ++ "bogus")) ∧
    synthesizeIType ⟨0, "bogus", "ra", 0, 0⟩ ⟨.I_TYPE, 19, 0, 0⟩
      = GoResult.ret 0 (some ("invalid source register: " ++ "bogus")) ∧
    synthesizeIType ⟨0, "sp", "bogus", 0, 0⟩ ⟨.I_TYPE, 19, 0, 0⟩
      = GoResult.ret 0 (some ("invalid target register: " ++ "bogus")) ∧
    synthesizeJType ⟨0, "bogus", 0⟩ ⟨.J_TYPE, 111, 0, 0⟩
      = GoResult.ret 0 (some ("invalid destination register: " ++ "bogus")) :=
  ⟨(c6_unknown_register_roles ⟨.R_TYPE, 51, 0, 0⟩ ⟨0, "bogus", "sp", "ra", 0, 0⟩
      ⟨0, "sp", "bogus", 0, 0⟩ ⟨0, "bogus", 0⟩).1 (by decide),
   (c6_unknown_register_roles ⟨.R_TYPE, 51, 0, 0⟩ ⟨0, "sp", "bogus", "ra", 0, 0⟩
      ⟨0, "sp", "bogus", 0, 0⟩ ⟨0, "bogus", 0⟩).2.1 (by decide) (by decide),
   (c6_unknown_register_roles ⟨.R_TYPE, 51, 0, 0⟩ ⟨0, "sp", "ra", "bogus", 0, 0⟩
      ⟨0, "sp", "bogus", 0, 0⟩ ⟨0, "bogus", 0⟩).2.2.1 (by decide) (by decide) (by decide),
   (c6_unknown_register_roles ⟨.I_TYPE, 19, 0, 0⟩ ⟨0, "sp", "ra", "sp", 0, 0⟩
      ⟨0, "bogus", "ra", 0, 0⟩ ⟨0, "bogus", 0⟩).2.2.2.1 (by decide),
   (c6_unknown_register_roles ⟨.I_TYPE, 19, 0, 0⟩ ⟨0, "sp", "ra", "sp", 0, 0⟩
      ⟨0, "sp", "bogus", 0, 0⟩ ⟨0, "bogus", 0⟩).2.2.2.2.1 (by decide) (by decide),
   (c6_unknown_register_roles ⟨.J_TYPE, 111, 0, 0⟩ ⟨0, "sp", "ra", "sp", 0, 0⟩
      ⟨0, "sp", "ra", 0, 0⟩ ⟨0, "bogus", 0⟩).2.2.2.2.2 (by decide)⟩

/-- Claim C3: for valid `rs1` and `rd` names and any `int16` immediate,
the I-type encoder succeeds, the low 16 bits of the word are the
immediate reduced modulo `2^16` (silent two-complement masking, no
overflow error), and the bits above the register/opcode fields are
exactly those of the word packed without the immediate. -/
theorem c3_itype_immediate_masking (asm : ITypeInstruction) (instr : Instruction)
    (s t : Nat) (hop : instr.opcode < 256)
    (hlo : -32768 ≤ asm.imm) (hhi : asm.imm < 32768)
    (hs : mapLookup registerMap asm.rs1 = some s)
    (ht : mapLookup registerMap asm.rd = some t) :
    (synthesizeIType asm instr).isSuccess = true ∧
    (synthesizeIType asm instr).word % 65536 = (asm.imm % 65536).toNat ∧
    (synthesizeIType asm instr).word >>> 16
      = (u32 (instr.opcode <<< 26) ||| u32 (s <<< 21) ||| u32 (t <<< 16)) >>> 16 := by
  have hs32 := registerMap_lt hs
  have ht32 := registerMap_lt ht
  have him := immLow16 asm.imm
  have hiv : (asm.imm % 65536).toNat < 65536 := by omega
  simp only [synthesizeIType, hs, ht]
  refine ⟨rfl, ?_, ?_⟩
  · simp only [GoResult.word]
    rw [him, iWord_eq hop hs32 ht32 hiv]
    omega
  · simp only [GoResult.word]
    rw [him, iWord_eq hop hs32 ht32 hiv, iFields_eq hop hs32 ht32,
        Nat.shiftRight_eq_div_pow, Nat.shiftRight_eq_div_pow]
    norm_num
    omega

/-- Claim C3 witness: encoding with `rs1 = t0`, `rd = t1` and the
negative immediate -1, which masks to 65535 in the low 16 bits. -/
theorem c3_itype_immediate_masking_witness :
    (synthesizeIType ⟨0, "t0", "t1", 0, -1⟩ ⟨.I_TYPE, 19, 0, 0⟩).isSuccess = true ∧
    (synthesizeIType ⟨0, "t0", "t1", 0, -1⟩ ⟨.I_TYPE, 19, 0, 0⟩).word % 65536
      = ((-1 : Int) % 65536).toNat ∧
    (synthesizeIType ⟨0, "t0", "t1", 0, -1⟩ ⟨.I_TYPE, 19, 0, 0⟩).word >>> 16
      = (u32 (19 <<< 26) ||| u32 (5 <<< 21) ||| u32 (6 <<< 16)) >>> 16 :=
  c3_itype_immediate_masking ⟨0, "t0", "t1", 0, -1⟩ ⟨.I_TYPE, 19, 0, 0⟩ 5 6
    (by norm_num) (by norm_num) (by norm_num) (by decide) (by decide)

/-- Claim C4 counterexample: a jump to address 0 with destination
register `ra` produces a word whose low 26 bits are 65536, not the
26-bit-masked immediate 0: the destination register field at bit 16
corrupts the address field. -/
theorem c4_claim_counterexample :
    synthesizeJType ⟨111, "ra", 0⟩ ⟨.J_TYPE, 111, 0, 0⟩
      = GoResult.ret 3154182144 none ∧
    3154182144 % 67108864 = 65536 ∧
    ((0 : Int) % 67108864).toNat = 0 ∧
    (65536 : Nat) ≠ 0 := by
  refine ⟨by decide, by norm_num, by decide, by norm_num⟩

/-- Claim C4 as amended: for a valid destination register of index `d`,
the J-type encoder succeeds and the low 26 bits of the word are the
26-bit-masked immediate bitwise-ORed with `d` shifted to bit 16 — the
destination register field lies inside the address field, so the
address is recovered intact only when that OR is absorbed. -/
theorem c4_jtype_low26 (asm : JTypeInstruction) (instr : Instruction) (d : Nat)
    (hop : instr.opcode < 256)
    (hd : mapLookup registerMap asm.rd = some d) :
    (synthesizeJType asm instr).isSuccess = true ∧
    (synthesizeJType asm instr).word % 67108864
      = ((d <<< 16) ||| (asm.imm % 67108864).toNat) := by
  have hd32 := registerMap_lt hd
  have him := immLow26 asm.imm
  have hiv : (asm.imm % 67108864).toNat < 67108864 := by omega
  simp only [synthesizeJType, hd]
  refine ⟨rfl, ?_⟩
  simp only [GoResult.word]
  rw [him, jWord_eq hop hd32 hiv, Nat.shiftLeft_eq]
  norm_num
  have hor : d * 65536 ||| (asm.imm % 67108864).toNat < 67108864 :=
    Nat.or_lt_two_pow (n := 26) (by omega) (by omega)
  omega

/-- Claim C4 witness: destination `ra` (index 1) and immediate 0; the
low 26 bits come out as the OR of the two fields. -/
theorem c4_jtype_low26_witness :
    (synthesizeJType ⟨111, "ra", 0⟩ ⟨.J_TYPE, 111, 0, 0⟩).isSuccess = true ∧
    (synthesizeJType ⟨111, "ra", 0⟩ ⟨.J_TYPE, 111, 0, 0⟩).word % 67108864
      = ((1 <<< 16) ||| (((0 : Int)) % 67108864).toNat) :=
  c4_jtype_low26 ⟨111, "ra", 0⟩ ⟨.J_TYPE, 111, 0, 0⟩ 1 (by norm_num) (by decide)

/-- Claim C5 counterexample: a record for "add" carrying the `uint8`
funct7 value 0x10 encodes successfully, yet the opcode field read back
at bits 26..31 is 59, not the table opcode 51: the funct7 field at bit
25 overlaps the opcode field. -/
theorem c5_claim_counterexample :
    mapLookup instructionSet "add" = some ⟨.R_TYPE, 51, 0, 0⟩ ∧
    synthesize ⟨"add", some ⟨0, "t0", "t1", "sp", 0, 16⟩, none, none, none, none, none⟩
      = GoResult.ret 3970306048 none ∧
    3970306048 >>> 26 = 59 ∧
    (59 : Nat) ≠ 51 := by
  refine ⟨by decide, by decide, by decide, by norm_num⟩

/-- Claim C5 as amended: for every record that `synthesize` encodes
successfully and whose funct7 field carries the fixed function bits
recorded for its mnemonic in the table, shifting the word right by 26
bits recovers exactly the table opcode of the mnemonic. -/
theorem c5_opcode_roundtrip (asm : AssemblyInstruction) (instr : Instruction)
    (rt : RTypeInstruction) (w : Nat)
    (hlk : mapLookup instructionSet asm.name = some instr)
    (hrt : asm.rType = some rt)
    (h3 : rt.funct3 < 256)
    (h7 : rt.funct7 = instr.funct7)
    (hw : synthesize asm = GoResult.ret w none) :
    w >>> 26 = instr.opcode := by
  obtain ⟨hfmt, hop, hf3i, hf7i⟩ := instructionSet_facts hlk
  simp only [synthesize, hlk, hfmt, hrt] at hw
  cases hs : mapLookup registerMap rt.rs1 with
  | none => simp [synthesizeRType, hs] at hw
  | some s =>
    cases ht : mapLookup registerMap rt.rs2 with
    | none => simp [synthesizeRType, hs, ht] at hw
    | some t =>
      cases hdd : mapLookup registerMap rt.rd with
      | none => simp [synthesizeRType, hs, ht, hdd] at hw
      | some d =>
        simp only [synthesizeRType, hs, ht, hdd, GoResult.ret.injEq] at hw
        obtain ⟨hw1, -⟩ := hw
        subst hw1
        rw [hop]
        exact rWord_shift26 (registerMap_lt hs) (registerMap_lt ht)
          (registerMap_lt hdd) h3 (h7 ▸ hf7i)

/-- Claim C5 witness: a successful "add" encoding whose record carries
the table funct bits; the opcode field reads back 51. -/
theorem c5_opcode_roundtrip_witness :
    mapLookup instructionSet "add" = some ⟨.R_TYPE, 51, 0, 0⟩ ∧
    synthesize ⟨"add", some ⟨0, "t0", "t1", "sp", 0, 0⟩, none, none, none, none, none⟩
      = GoResult.ret 3433435136 none ∧
    3433435136 >>> 26 = 51 :=
  ⟨by decide, by decide,
   c5_opcode_roundtrip
     ⟨"add", some ⟨0, "t0", "t1", "sp", 0, 0⟩, none, none, none, none, none⟩
     ⟨.R_TYPE, 51, 0, 0⟩ ⟨0, "t0", "t1", "sp", 0, 0⟩ 3433435136
     (by decide) rfl (by norm_num) (by decide) (by decide)⟩

/-- Claim C1 counterexample: encoding "add" (table funct3 = 0,
funct7 = 0) with the distinct valid registers rd = sp, rs1 = t0,
rs2 = t1 succeeds, but the funct3 function-code field read back at its
packed offset (bit 12) is 1, not the table value 0: the rd field at
bit 11 overlaps the funct3 field, refuting both the field equalities
and the no-overlap part of the claim. -/
theorem c1_claim_counterexample :
    mapLookup instructionSet "add" = some ⟨.R_TYPE, 51, 0, 0⟩ ∧
    synthesize ⟨"add", some ⟨0, "t0", "t1", "sp", 0, 0⟩, none, none, none, none, none⟩
      = GoResult.ret 3433435136 none ∧
    (3433435136 >>> 12) % 8 = 1 ∧
    (1 : Nat) ≠ 0 := by
  refine ⟨by decide, by decide, by decide, by norm_num⟩

/-- Claim C1 as amended: for every R-type mnemonic in the table,
encoding with three distinct valid register names and the record
carrying the table funct bits succeeds, the rs1 and rs2 fields at bits
21 and 16 and the opcode field at bits 26..31 read back exactly, but
the rd field at bit 11 reads back the destination index bitwise-ORed
with the table funct3 bits shifted by one: the rd and funct3 fields
overlap, as do the funct7 and opcode fields (the funct7 pattern 0x20 is
absorbed into the opcode bits). -/
theorem c1_rtype_field_packing (asm : AssemblyInstruction) (instr : Instruction)
    (rt : RTypeInstruction) (s t d : Nat)
    (hlk : mapLookup instructionSet asm.name = some instr)
    (hrt : asm.rType = some rt)
    (hf3 : rt.funct3 = instr.funct3)
    (hf7 : rt.funct7 = instr.funct7)
    (h12 : rt.rs1 ≠ rt.rs2) (h13 : rt.rs1 ≠ rt.rd) (h23 : rt.rs2 ≠ rt.rd)
    (hs : mapLookup registerMap rt.rs1 = some s)
    (ht : mapLookup registerMap rt.rs2 = some t)
    (hd : mapLookup registerMap rt.rd = some d) :
    (synthesize asm).isSuccess = true ∧
    ((synthesize asm).word >>> 21) % 32 = s ∧
    ((synthesize asm).word >>> 16) % 32 = t ∧
    ((synthesize asm).word >>> 11) % 32 = (d ||| instr.funct3 <<< 1) ∧
    (synthesize asm).word >>> 26 = instr.opcode := by
  obtain ⟨hfmt, hop, hf3i, hf7i⟩ := instructionSet_facts hlk
  have hs32 := registerMap_lt hs
  have ht32 := registerMap_lt ht
  have hd32 := registerMap_lt hd
  obtain ⟨-, hm32⟩ := rdLow_pair d hd32 instr.funct3 hf3i
  simp only [synthesize, hlk, hfmt, hrt, synthesizeRType, hs, ht, hd]
  rw [hop, hf3, hf7]
  have h7 : instr.funct7 = 0 ∨ instr.funct7 = 32 := hf7i
  refine ⟨rfl, ?_, ?_, ?_, ?_⟩
  · simp only [GoResult.word]
    rw [rWord_eq hs32 ht32 hd32 hf3i h7, Nat.shiftRight_eq_div_pow]
    norm_num
    omega
  · simp only [GoResult.word]
    rw [rWord_eq hs32 ht32 hd32 hf3i h7, Nat.shiftRight_eq_div_pow]
    norm_num
    omega
  · simp only [GoResult.word]
    rw [rWord_eq hs32 ht32 hd32 hf3i h7, Nat.shiftRight_eq_div_pow, Nat.shiftLeft_eq]
    norm_num
    omega
  · simp only [GoResult.word]
    rw [rWord_eq hs32 ht32 hd32 hf3i h7, Nat.shiftRight_eq_div_pow]
    norm_num
    omega

/-- Claim C1 witness: "xor" (table funct3 = 4) with rd = zero,
rs1 = ra, rs2 = sp; the rd field reads back 0 ||| 8 = 8. -/
theorem c1_rtype_field_packing_witness :
    (synthesize ⟨"xor", some ⟨0, "ra", "sp", "zero", 4, 0⟩,
        none, none, none, none, none⟩).isSuccess = true ∧
    ((synthesize ⟨"xor", some ⟨0, "ra", "sp", "zero", 4, 0⟩,
        none, none, none, none, none⟩).word >>> 21) % 32 = 1 ∧
    ((synthesize ⟨"xor", some ⟨0, "ra", "sp", "zero", 4, 0⟩,
        none, none, none, none, none⟩).word >>> 16) % 32 = 2 ∧
    ((synthesize ⟨"xor", some ⟨0, "ra", "sp", "zero", 4, 0⟩,
        none, none, none, none, none⟩).word >>> 11) % 32 = (0 ||| (4 : Nat) <<< 1) ∧
    (synthesize ⟨"xor", some ⟨0, "ra", "sp", "zero", 4, 0⟩,
        none, none, none, none, none⟩).word >>> 26 = 51 :=
  c1_rtype_field_packing
    ⟨"xor", some ⟨0, "ra", "sp", "zero", 4, 0⟩, none, none, none, none, none⟩
    ⟨.R_TYPE, 51, 4, 0⟩ ⟨0, "ra", "sp", "zero", 4, 0⟩ 1 2 0
    (by decide) rfl rfl rfl (by decide) (by decide) (by decide)
    (by decide) (by decide) (by decide)

/-- Claim C8: for every mnemonic of the table, a record whose populated
shape matches the declared format and whose register names all lie in
the canonical 32-entry map encodes to a word without error. -/
theorem c8_valid_operands_encode (asm : AssemblyInstruction) (instr : Instruction)
    (hlk : mapLookup instructionSet asm.name = some instr)
    (hshape : shapeMatches asm instr.format = true)
    (hregs : operandRegsValid asm = true) :
    (synthesize asm).isSuccess = true := by
  obtain ⟨hfmt, -, -, -⟩ := instructionSet_facts hlk
  rw [hfmt] at hshape
  simp only [shapeMatches] at hshape
  obtain ⟨rt, hrt⟩ := Option.isSome_iff_exists.mp hshape
  simp only [operandRegsValid, hrt, registerValid, Bool.and_eq_true] at hregs
  obtain ⟨⟨⟨⟨hv1, hv2⟩, hv3⟩, -⟩, -⟩ := hregs
  obtain ⟨s, hs⟩ := Option.isSome_iff_exists.mp hv1
  obtain ⟨t, ht⟩ := Option.isSome_iff_exists.mp hv2
  obtain ⟨d, hd⟩ := Option.isSome_iff_exists.mp hv3
  simp [synthesize, hlk, hfmt, hrt, synthesizeRType, hs, ht, hd, GoResult.isSuccess]

/-- Claim C8 witness: the mnemonic "sub" with three valid registers. -/
theorem c8_valid_operands_encode_witness :
    (synthesize ⟨"sub", some ⟨0, "a0", "a1", "a2", 0, 32⟩,
        none, none, none, none, none⟩).isSuccess = true :=
  c8_valid_operands_encode
    ⟨"sub", some ⟨0, "a0", "a1", "a2", 0, 32⟩, none, none, none, none, none⟩
    ⟨.R_TYPE, 51, 0, 32⟩ (by decide) (by decide) (by decide)

theorem rTypeWithState_state (st : GlobalState) (a : RTypeInstruction)
    (i : Instruction) : (synthesizeRTypeWithState st a i).2 = st := by
  simp only [synthesizeRTypeWithState]
  repeat' split
  all_goals rfl

theorem iTypeWithState_state (st : GlobalState) (a : ITypeInstruction)
    (i : Instruction) : (synthesizeITypeWithState st a i).2 = st := by
  simp only [synthesizeITypeWithState]
  repeat' split
  all_goals rfl

theorem jTypeWithState_state (st : GlobalState) (a : JTypeInstruction)
    (i : Instruction) : (synthesizeJTypeWithState st a i).2 = st := by
  simp only [synthesizeJTypeWithState]
  repeat' split
  all_goals rfl

theorem withState_state (st : GlobalState) (asm : AssemblyInstruction) :
    (synthesizeWithState st asm).2 = st := by
  simp only [synthesizeWithState]
  repeat' split
  all_goals try rfl
  all_goals rename_i heq
  · exact (congrArg Prod.snd heq).symm.trans (rTypeWithState_state _ _ _)
  · exact (congrArg Prod.snd heq).symm.trans (rTypeWithState_state _ _ _)
  · exact (congrArg Prod.snd heq).symm.trans (rTypeWithState_state _ _ _)
  · exact (congrArg Prod.snd heq).symm.trans (iTypeWithState_state _ _ _)
  · exact (congrArg Prod.snd heq).symm.trans (iTypeWithState_state _ _ _)
  · exact (congrArg Prod.snd heq).symm.trans (iTypeWithState_state _ _ _)
  · exact (congrArg Prod.snd heq).symm.trans (jTypeWithState_state _ _ _)
  · exact (congrArg Prod.snd heq).symm.trans (jTypeWithState_state _ _ _)
  · exact (congrArg Prod.snd heq).symm.trans (jTypeWithState_state _ _ _)

theorem rTypeWithState_eq (a : RTypeInstruction) (i : Instruction) :
    synthesizeRTypeWithState ⟨instructionSet, registerMap⟩ a i
      = (synthesizeRType a i, ⟨instructionSet, registerMap⟩) := by
  simp only [synthesizeRTypeWithState, synthesizeRType]
  repeat' split
  all_goals rfl

theorem iTypeWithState_eq (a : ITypeInstruction) (i : Instruction) :
    synthesizeITypeWithState ⟨instructionSet, registerMap⟩ a i
      = (synthesizeIType a i, ⟨instructionSet, registerMap⟩) := by
  simp only [synthesizeITypeWithState, synthesizeIType]
  repeat' split
  all_goals rfl

theorem jTypeWithState_eq (a : JTypeInstruction) (i : Instruction) :
    synthesizeJTypeWithState ⟨instructionSet, registerMap⟩ a i
      = (synthesizeJType a i, ⟨instructionSet, registerMap⟩) := by
  simp only [synthesizeJTypeWithState, synthesizeJType]
  repeat' split
  all_goals rfl

theorem withState_fst (asm : AssemblyInstruction) :
    (synthesizeWithState ⟨instructionSet, registerMap⟩ asm).1 = synthesize asm := by
  simp only [synthesizeWithState, synthesize]
  cases hlk : mapLookup instructionSet asm.name with
  | none => rfl
  | some instr =>
    obtain ⟨fmt, op, f3, f7⟩ := instr
    cases fmt with
    | R_TYPE =>
      cases hrt : asm.rType with
      | none => rfl
      | some rt =>
        dsimp only
        rw [rTypeWithState_eq]
        cases he : synthesizeRType rt ⟨.R_TYPE, op, f3, f7⟩ with
        | ret w err => cases err <;> rfl
        | crash m => rfl
    | I_TYPE =>
      cases hit : asm.iType with
      | none => rfl
      | some it =>
        dsimp only
        rw [iTypeWithState_eq]
        cases he : synthesizeIType it ⟨.I_TYPE, op, f3, f7⟩ with
        | ret w err => cases err <;> rfl
        | crash m => rfl
    | J_TYPE =>
      cases hjt : asm.jType with
      | none => rfl
      | some jt =>
        dsimp only
        rw [jTypeWithState_eq]
        cases he : synthesizeJType jt ⟨.J_TYPE, op, f3, f7⟩ with
        | ret w err => cases err <;> rfl
        | crash m => rfl
    | S_TYPE => rfl
    | B_TYPE => rfl
    | U_TYPE => rfl

/-- Claim C9: `synthesize` only reads the two package-level maps.  In
the state-passing rendering, every call returns the global state
unchanged, a second call on the same record after the first returns the
identical result, and at the state holding `instructionSet` and
`registerMap` the state-passing rendering agrees with `synthesize`. -/
theorem c9_deterministic_pure (st : GlobalState) (asm : AssemblyInstruction) :
    (synthesizeWithState st asm).2 = st ∧
    (synthesizeWithState ((synthesizeWithState st asm).2) asm).1
      = (synthesizeWithState st asm).1 ∧
    (synthesizeWithState ⟨instructionSet, registerMap⟩ asm).1 = synthesize asm := by
  refine ⟨withState_state st asm, ?_, withState_fst asm⟩
  rw [withState_state st asm]

end ViperASM
